import Mathlib

/-!
Verification of the text analytics pipeline of the sentiment-analyzer app
(`sentiment-analyzer/app.py`).

Modelling conventions:
* A Python `str` is a list of Unicode code points, `List Nat` (`Text` below).
  Python slicing, `split`, `strip` and `re.split` operate on code points, so
  this embedding is exact.
* The natural-language toolkit (TextBlob) is external: its two entry points
  are oracles passed as function arguments.  A call that raises a Python
  exception is modelled by `Except.error ()`; a successful call by
  `Except.ok v`.
* Python floats (`polarity`, `subjectivity`) are modelled as rationals `ℚ`;
  the program only compares them with `0` and returns the exact constants
  `0` and `0.5`, so no rounding behaviour is observable in the claims.
* `try:/except Exception:` is modelled by matching on the `Except` value of
  the protected body and returning the handler's value in the `error` case.
-/

/-- A Python string, as its sequence of Unicode code points. -/
abbrev Text := List Nat

/-- The code points Python's `str.strip()`, `str.split()` and the regex class
`\s` treat as whitespace (CPython's Unicode whitespace set). -/
def isPySpace (c : Nat) : Bool :=
  decide (9 ≤ c ∧ c ≤ 13) || decide (28 ≤ c ∧ c ≤ 31) || decide (c = 32) ||
  decide (c = 133) || decide (c = 160) || decide (c = 5760) ||
  decide (8192 ≤ c ∧ c ≤ 8202) || decide (c = 8232) || decide (c = 8233) ||
  decide (c = 8239) || decide (c = 8287) || decide (c = 12288)

/-- The regex class `[a-zA-Z]`: ASCII letters. -/
def isAsciiAlpha (c : Nat) : Bool :=
  decide (65 ≤ c ∧ c ≤ 90) || decide (97 ≤ c ∧ c ≤ 122)

/-- Python `str.lower()` on one code point.  `clean_text` applies it only to
characters that survived the `[^a-zA-Z\s]` removal — ASCII letters and
whitespace — where Python's full Unicode case mapping coincides with the
ASCII rule used here (whitespace code points are uncased). -/
def pyLowerChar (c : Nat) : Nat :=
  if 65 ≤ c ∧ c ≤ 90 then c + 32 else c

/-- Definition of `clean_text` from `app.py`:
`re.sub(r'[^a-zA-Z\s]', '', text)` (keep ASCII letters and whitespace,
drop everything else) followed by `text.lower()`. -/
def clean_text (s : Text) : Text :=
  (s.filter (fun c => isAsciiAlpha c || isPySpace c)).map pyLowerChar

lemma keep_pyLowerChar {c : Nat} (h : (isAsciiAlpha c || isPySpace c) = true) :
    (isAsciiAlpha (pyLowerChar c) || isPySpace (pyLowerChar c)) = true ∧
    pyLowerChar (pyLowerChar c) = pyLowerChar c := by
  simp only [isAsciiAlpha, isPySpace, pyLowerChar, Bool.or_eq_true,
    decide_eq_true_eq] at h ⊢
  rcases h with h | h <;> split <;> simp_all <;> omega

lemma mem_clean_text {c : Nat} {s : Text} (h : c ∈ clean_text s) :
    (isAsciiAlpha c || isPySpace c) = true ∧ pyLowerChar c = c := by
  simp only [clean_text, List.mem_map, List.mem_filter] at h
  obtain ⟨c₀, ⟨_, hk⟩, rfl⟩ := h
  exact ⟨(keep_pyLowerChar hk).1, (keep_pyLowerChar hk).2⟩

/-- Claim C8: the normalizer is idempotent: for every string `s`,
`clean_text (clean_text s) = clean_text s`, where `clean_text` removes every
character that is not an ASCII letter or whitespace and lower-cases the
result. -/
theorem clean_text_idempotent (s : Text) :
    clean_text (clean_text s) = clean_text s := by
  show (List.filter _ (clean_text s)).map pyLowerChar = clean_text s
  rw [List.filter_eq_self.mpr (fun c hc => (mem_clean_text hc).1)]
  calc (clean_text s).map pyLowerChar
      = (clean_text s).map id :=
        List.map_congr_left (fun c hc => (mem_clean_text hc).2)
    _ = clean_text s := List.map_id _

/-- Python `str.strip()`: remove leading and trailing whitespace. -/
def pyStrip (s : Text) : Text :=
  ((s.dropWhile isPySpace).reverse.dropWhile isPySpace).reverse

/-- Python `str.split()` with no separator: split on runs of whitespace and
drop empty tokens.  `acc` holds the reversed current token. -/
def splitWsAux : Text → Text → List Text
  | [], acc => if acc.isEmpty then [] else [acc.reverse]
  | c :: cs, acc =>
    if isPySpace c then
      if acc.isEmpty then splitWsAux cs [] else acc.reverse :: splitWsAux cs []
    else splitWsAux cs (c :: acc)

/-- Model of `text.split()` from `app.py` line 44. -/
def pySplitWs (s : Text) : List Text := splitWsAux s []

/-- The regex class `[.!?]` used for sentence segmentation. -/
def isSentPunct (c : Nat) : Bool :=
  decide (c = 46) || decide (c = 33) || decide (c = 63)

mutual
/-- Main state of `re.split('[.!?]+', text)`: `acc` holds the reversed current
fragment; a delimiter character ends the fragment and enters skip state. -/
def splitSentRun : Text → Text → List Text
  | [], acc => [acc.reverse]
  | c :: cs, acc =>
    if isSentPunct c then acc.reverse :: splitSentSkip cs
    else splitSentRun cs (c :: acc)

/-- Skip state: consume the rest of a run of `[.!?]` delimiters. -/
def splitSentSkip : Text → List Text
  | [] => [[]]
  | c :: cs => if isSentPunct c then splitSentSkip cs else splitSentRun cs [c]
end

/-- Model of `re.split('[.!?]+', text)` from `app.py` lines 46 and 65. -/
def reSplitSent (s : Text) : List Text := splitSentRun s []

/-- The list comprehension
`[s.strip() for s in re.split('[.!?]+', text) if s.strip()]`. -/
def sentenceFrags (t : Text) : List Text :=
  (reSplitSent t).filterMap fun s =>
    if (pyStrip s).isEmpty then none else some (pyStrip s)

/-- First-occurrence-ordered distinct elements, as `collections.Counter`
keeps its keys in insertion order. -/
def distinctKeys : List Text → List Text
  | [] => []
  | t :: ts => t :: (distinctKeys ts).filter (· ≠ t)

/-- Model of `collections.Counter(tags)`: map each distinct tag to its number of
occurrences, keys in first-occurrence order. -/
def counter (tags : List Text) : List (Text × Nat) :=
  (distinctKeys tags).map fun t => (t, tags.count t)

/-- The result record of `analyze_text_details`. -/
structure TextDetails where
  word_count : Nat
  sentence_count : Nat
  pos_counts : List (Text × Nat)
deriving DecidableEq, Repr

/-- A part-of-speech tagger oracle: `TextBlob(text).tags`, a sequence of
(token, tag) pairs; `Except.error ()` models a raised exception. -/
abbrev Tagger := Text → Except Unit (List (Text × Text))

/-- A sentiment oracle: `TextBlob(text).sentiment`, giving
(polarity, subjectivity); `Except.error ()` models a raised exception. -/
abbrev SentOracle := Text → Except Unit (ℚ × ℚ)

/-- The inner `try` of `analyze_text_details`:
`pos_counts = Counter(tag for word, tag in blob.tags)`, protected by
`except Exception: pos_counts = Counter()`. -/
def posCountsOf (tagger : Tagger) (text : Text) : List (Text × Nat) :=
  match tagger text with
  | Except.ok tags => counter (tags.map Prod.snd)
  | Except.error _ => []

/-- The body of the outer `try` of `analyze_text_details` (lines 36-60).
Apart from the tagger call — whose exceptions the inner handler already
absorbs into `posCountsOf` — the body is built from total string
operations, so it is a plain value. -/
def analyze_text_detailsBody (tagger : Tagger) (text : Text) : TextDetails :=
  if (pyStrip text).isEmpty then
    { word_count := 0, sentence_count := 0, pos_counts := [] }
  else
    { word_count := (pySplitWs text).length
      sentence_count := (sentenceFrags text).length
      pos_counts := posCountsOf tagger text }

/-- Definition of `analyze_text_details` from `app.py` lines 34-67.  The outer
`except Exception` handler (lines 61-67) recomputes the two counts and
returns an empty counter; in this embedding the protected body never
raises, so the function equals its body. -/
def analyze_text_details (tagger : Tagger) (text : Text) : TextDetails :=
  analyze_text_detailsBody tagger text

/-- The 3-way sentiment category. -/
inductive Sentiment where
  | Positive
  | Negative
  | Neutral
deriving DecidableEq, Repr

/-- Line 75: `"Positive" if polarity > 0 else "Negative" if polarity < 0
else "Neutral"`. -/
def classify (polarity : ℚ) : Sentiment :=
  if polarity > 0 then .Positive
  else if polarity < 0 then .Negative
  else .Neutral

/-- The result record of `get_sentiment`. -/
structure SentimentResult where
  polarity : ℚ
  subjectivity : ℚ
  category : Sentiment
deriving DecidableEq, Repr

/-- Definition of `get_sentiment` from `app.py` lines 70-87: query the sentiment oracle;
on any exception return the neutral fallback
`{polarity: 0, subjectivity: 0.5, category: "Neutral"}`. -/
def get_sentiment (oracle : SentOracle) (text : Text) : SentimentResult :=
  match oracle text with
  | Except.ok (p, s) =>
      { polarity := p, subjectivity := s, category := classify p }
  | Except.error _ =>
      { polarity := 0, subjectivity := 1/2, category := .Neutral }

/-- The code points of the ellipsis string `"..."`. -/
def ellipsis : Text := [46, 46, 46]

/-- Line 169: `text_input[:50] + "..." if len(text_input) > 50 else
text_input`. -/
def preview (text : Text) : Text :=
  if text.length > 50 then text.take 50 ++ ellipsis else text

/-- The dictionary appended to the history (lines 168-172): text preview,
sentiment category and polarity of the current analysis. -/
structure HistoryEntry where
  textPreview : Text
  sentiment : Sentiment
  polarity : ℚ
deriving DecidableEq, Repr

/-- Lines 174-175: `if current_analysis not in st.session_state.history:
st.session_state.history.append(current_analysis)`.  Python `not in`
scans the whole list using field-wise dict equality. -/
def appendHistory (h : List HistoryEntry) (e : HistoryEntry) :
    List HistoryEntry :=
  if e ∈ h then h else h ++ [e]

/-- The structured analysis result assembled per input by `main`
(spec's `AnalysisResult`). -/
structure AnalysisResult where
  sourceTextPreview : Text
  word_count : Nat
  sentence_count : Nat
  pos_counts : List (Text × Nat)
  polarity : ℚ
  subjectivity : ℚ
  category : Sentiment
deriving DecidableEq, Repr

/-- One analysis invocation as `main` performs it (lines 96-172):
clean the text, score sentiment on the cleaned text, compute details on
the raw text, and assemble the result with the truncated preview. -/
def analyze (oracle : SentOracle) (tagger : Tagger) (text : Text) :
    AnalysisResult :=
  let cleaned := clean_text text
  let s := get_sentiment oracle cleaned
  let d := analyze_text_details tagger text
  { sourceTextPreview := preview text
    word_count := d.word_count
    sentence_count := d.sentence_count
    pos_counts := d.pos_counts
    polarity := s.polarity
    subjectivity := s.subjectivity
    category := s.category }

/-- The history entry `main` derives from one analysis (lines 168-172). -/
def historyEntryOf (r : AnalysisResult) : HistoryEntry :=
  { textPreview := r.sourceTextPreview
    sentiment := r.category
    polarity := r.polarity }

/-- The session history reached by running a sequence of appends from the
empty history created at session start (line 164-165). -/
def runHistory (es : List HistoryEntry) : List HistoryEntry :=
  es.foldl appendHistory []

/-- Exception-level semantics of a `try` block with a bare
`except Exception:` handler: any error of the body is converted into the
handler's value, so the result is always `ok`. -/
def catchAll {α : Type} (body : Except Unit α) (handler : α) :
    Except Unit α :=
  match body with
  | Except.ok a => Except.ok a
  | Except.error _ => Except.ok handler

/-- Version of `get_sentiment` with exceptions made explicit: the oracle call may
raise inside the `try`; the `except` clause yields the neutral fallback. -/
def get_sentimentRun (oracle : SentOracle) (text : Text) :
    Except Unit SentimentResult :=
  catchAll
    (do
      let ps ← oracle text
      pure { polarity := ps.1, subjectivity := ps.2, category := classify ps.1 })
    { polarity := 0, subjectivity := 1/2, category := .Neutral }

/-- Version of `analyze_text_details` with exceptions made explicit: the tagger call
may raise inside the inner `try` (handler: empty counter); the outer
`except` recomputes the counts with an empty counter. -/
def analyze_text_detailsRun (tagger : Tagger) (text : Text) :
    Except Unit TextDetails :=
  catchAll
    (do
      if (pyStrip text).isEmpty then
        pure { word_count := 0, sentence_count := 0, pos_counts := [] }
      else
        let pos ← catchAll
          (do
            let tags ← tagger text
            pure (counter (tags.map Prod.snd)))
          []
        pure { word_count := (pySplitWs text).length
               sentence_count := (sentenceFrags text).length
               pos_counts := pos })
    { word_count := (pySplitWs text).length
      sentence_count := (sentenceFrags text).length
      pos_counts := [] }

/-- One analysis invocation with exceptions made explicit:
`Except.error` would model an uncaught exception escaping to `main`'s
caller. -/
def analyzeRun (oracle : SentOracle) (tagger : Tagger) (text : Text) :
    Except Unit AnalysisResult := do
  let s ← get_sentimentRun oracle (clean_text text)
  let d ← analyze_text_detailsRun tagger text
  pure { sourceTextPreview := preview text
         word_count := d.word_count
         sentence_count := d.sentence_count
         pos_counts := d.pos_counts
         polarity := s.polarity
         subjectivity := s.subjectivity
         category := s.category }

/-! ## Supporting lemmas -/

lemma classify_eq_iff (p : ℚ) :
    (classify p = .Positive ↔ 0 < p) ∧ (classify p = .Negative ↔ p < 0) ∧
    (classify p = .Neutral ↔ p = 0) := by
  unfold classify
  rcases lt_trichotomy p 0 with h | rfl | h
  · rw [if_neg (by linarith), if_pos h]
    exact ⟨(by simp; linarith), (by simp [h]), (by simp [h.ne])⟩
  · rw [if_neg (by linarith), if_neg (by linarith)]
    exact ⟨(by simp), (by simp), (by simp)⟩
  · rw [if_pos h]
    exact ⟨(by simp [h]), (by simp; linarith), (by simp [h.ne'])⟩

lemma get_sentiment_category (oracle : SentOracle) (t : Text) :
    (get_sentiment oracle t).category =
      classify (get_sentiment oracle t).polarity := by
  unfold get_sentiment
  cases oracle t with
  | ok ps => rfl
  | error e => rfl

lemma pyStrip_eq_nil_iff (t : Text) :
    pyStrip t = [] ↔ ∀ a ∈ t, isPySpace a := by
  unfold pyStrip
  rw [List.reverse_eq_nil_iff, List.dropWhile_eq_nil_iff]
  constructor
  · intro h a ha
    rcases List.mem_append.mp
        ((List.takeWhile_append_dropWhile (p := isPySpace) (l := t)) ▸ ha) with
      hm | hm
    · exact List.mem_takeWhile_imp hm
    · exact h a (List.mem_reverse.mpr hm)
  · intro h a ha
    exact h a ((List.dropWhile_sublist _).subset (List.mem_reverse.mp ha))

lemma appendHistory_nodup {h : List HistoryEntry} (hn : h.Nodup)
    (e : HistoryEntry) : (appendHistory h e).Nodup := by
  unfold appendHistory
  split
  · exact hn
  · next he =>
    rw [List.nodup_append]
    exact ⟨hn, List.nodup_singleton e,
      fun x hx hx' => he (List.mem_singleton.mp hx' ▸ hx)⟩

lemma get_sentimentRun_eq (oracle : SentOracle) (t : Text) :
    get_sentimentRun oracle t = Except.ok (get_sentiment oracle t) := by
  unfold get_sentimentRun get_sentiment catchAll
  cases oracle t <;> rfl

lemma analyze_text_detailsRun_eq (tagger : Tagger) (t : Text) :
    analyze_text_detailsRun tagger t =
      Except.ok (analyze_text_details tagger t) := by
  unfold analyze_text_detailsRun analyze_text_details analyze_text_detailsBody
    posCountsOf catchAll
  by_cases hb : (pyStrip t).isEmpty
  · rw [if_pos hb, if_pos hb]
    rfl
  · rw [if_neg hb, if_neg hb]
    cases tagger t <;> rfl

/-! ## Claim theorems -/

/-- Claim C1: for every string, the result of `analyze` has category
`Positive` iff its polarity is `> 0`, `Negative` iff `< 0`, and `Neutral`
iff `= 0`, for every behaviour of the toolkit oracles: the category is
derived from the polarity, never set independently of it. -/
theorem analyze_category_iff_polarity (oracle : SentOracle) (tagger : Tagger)
    (text : Text) :
    ((analyze oracle tagger text).category = .Positive ↔
      (analyze oracle tagger text).polarity > 0) ∧
    ((analyze oracle tagger text).category = .Negative ↔
      (analyze oracle tagger text).polarity < 0) ∧
    ((analyze oracle tagger text).category = .Neutral ↔
      (analyze oracle tagger text).polarity = 0) := by
  have hc : (analyze oracle tagger text).category =
      classify (analyze oracle tagger text).polarity :=
    get_sentiment_category oracle (clean_text text)
  rw [hc]
  exact classify_eq_iff _

/-- Claim C2: `appendHistory` adds the entry to the end iff no field-wise
equal entry occurs anywhere in the existing sequence; it leaves the
history unchanged iff a duplicate is present; appending the same entry
twice starting from the empty history yields length 1. -/
theorem appendHistory_dedup (h : List HistoryEntry) (e : HistoryEntry) :
    (appendHistory h e = h ++ [e] ↔ e ∉ h) ∧
    (appendHistory h e = h ↔ e ∈ h) ∧
    (appendHistory (appendHistory [] e) e).length = 1 := by
  have hlen : h ++ [e] ≠ h := by
    intro hc
    have := congrArg List.length hc
    simp at this
  have base : (appendHistory (appendHistory [] e) e).length = 1 := by
    simp [appendHistory]
  refine ⟨?_, ?_, base⟩ <;> unfold appendHistory <;> by_cases he : e ∈ h
  · rw [if_pos he]
    exact ⟨(fun hc => absurd hc.symm hlen), (fun hc => absurd he hc)⟩
  · rw [if_neg he]
    exact ⟨(fun _ => he), (fun _ => rfl)⟩
  · rw [if_pos he]
    exact ⟨(fun _ => he), (fun _ => rfl)⟩
  · rw [if_neg he]
    exact ⟨(fun hc => absurd hc hlen), (fun hc => absurd hc he)⟩

/-- Claim C3 counterexample: appending `e1`, then a distinct `e2`, then `e1`
again does NOT yield `[e1, e2, e1]` — the full-sequence membership check
suppresses the non-adjacent repeat of `e1`. -/
theorem appendHistory_nonadjacent_cex :
    ¬ (appendHistory (appendHistory (appendHistory []
          ⟨[97], .Positive, 1⟩) ⟨[98], .Negative, -1⟩) ⟨[97], .Positive, 1⟩ =
        [⟨[97], .Positive, 1⟩, ⟨[98], .Negative, -1⟩, ⟨[97], .Positive, 1⟩]) := by
  decide

/-- Claim C3 amended: from an empty history, appending `e1`, then a distinct
`e2`, then `e1` again yields the two-element sequence `[e1, e2]`: the
deduplication scans the whole sequence, so it also suppresses the
non-adjacent repeat of the earlier entry `e1`. -/
theorem appendHistory_nonadjacent (e1 e2 : HistoryEntry) (hne : e1 ≠ e2) :
    appendHistory (appendHistory (appendHistory [] e1) e2) e1 = [e1, e2] := by
  simp [appendHistory, hne, Ne.symm hne]

/-- Witness for `appendHistory_nonadjacent` at concrete distinct entries. -/
theorem appendHistory_nonadjacent_witness :
    appendHistory (appendHistory (appendHistory []
        ⟨[97], .Positive, 1⟩) ⟨[98], .Negative, -1⟩) ⟨[97], .Positive, 1⟩ =
      [⟨[97], .Positive, 1⟩, ⟨[98], .Negative, -1⟩] :=
  appendHistory_nonadjacent ⟨[97], .Positive, 1⟩ ⟨[98], .Negative, -1⟩
    (by decide)

/-- Claim C4: for every string that is empty or consists only of whitespace,
`analyze_text_details` returns word count 0, sentence count 0 and an empty
POS mapping — and this holds for every tagger oracle, i.e. the result is
computed without consulting the tagger (the empty check short-circuits
before the toolkit call). -/
theorem analyze_text_details_blank (tagger : Tagger) (text : Text)
    (hb : ∀ a ∈ text, isPySpace a) :
    analyze_text_details tagger text =
      { word_count := 0, sentence_count := 0, pos_counts := [] } := by
  unfold analyze_text_details analyze_text_detailsBody
  rw [if_pos]
  rw [List.isEmpty_iff, pyStrip_eq_nil_iff]
  exact hb

/-- Witness for `analyze_text_details_blank`: a space-and-tab string, with
an always-failing tagger. -/
theorem analyze_text_details_blank_witness :
    analyze_text_details (fun _ => Except.error ()) [32, 9] =
      { word_count := 0, sentence_count := 0, pos_counts := [] } :=
  analyze_text_details_blank (fun _ => Except.error ()) [32, 9] (by decide)

/-- Claim C5: whenever the toolkit's sentiment estimation raises an error,
`get_sentiment` returns exactly the fallback of polarity 0, subjectivity
1/2 and category Neutral, and propagates no error. -/
theorem get_sentiment_fallback (oracle : SentOracle) (text : Text)
    (hf : oracle text = Except.error ()) :
    get_sentiment oracle text =
      { polarity := 0, subjectivity := 1/2, category := .Neutral } := by
  unfold get_sentiment
  rw [hf]

/-- Witness for `get_sentiment_fallback`: an always-failing oracle on a
concrete string. -/
theorem get_sentiment_fallback_witness :
    get_sentiment (fun _ => Except.error ()) [97, 98] =
      { polarity := 0, subjectivity := 1/2, category := .Neutral } :=
  get_sentiment_fallback (fun _ => Except.error ()) [97, 98] rfl

/-- Claim C6: for every non-blank input on which the tagger raises an error,
the POS mapping is empty and no error propagates, while the word count and
sentence count are still the whitespace-split token count and the
punctuation-split non-empty fragment count of the text. -/
theorem analyze_text_details_tagger_failure (tagger : Tagger) (text : Text)
    (hnb : ¬ ∀ a ∈ text, isPySpace a) (hf : tagger text = Except.error ()) :
    analyze_text_details tagger text =
      { word_count := (pySplitWs text).length
        sentence_count := (sentenceFrags text).length
        pos_counts := [] } := by
  unfold analyze_text_details analyze_text_detailsBody posCountsOf
  rw [if_neg, hf]
  rw [List.isEmpty_iff, pyStrip_eq_nil_iff]
  exact hnb

/-- Witness for `analyze_text_details_tagger_failure`: the two-word string
`"a b"` with an always-failing tagger gives 2 words, 1 sentence and an
empty POS mapping. -/
theorem analyze_text_details_tagger_failure_witness :
    analyze_text_details (fun _ => Except.error ()) [97, 32, 98] =
      { word_count := 2, sentence_count := 1, pos_counts := [] } := by
  rw [analyze_text_details_tagger_failure (fun _ => Except.error ())
    [97, 32, 98] (by decide) rfl]
  decide

/-- Claim C7: for input longer than 50 characters the preview is the first
50 characters followed by the 3-character ellipsis (length 53); for input
of length at most 50 the preview is the input itself. -/
theorem preview_truncation (text : Text) :
    (text.length > 50 →
      (preview text).length = 53 ∧ preview text = text.take 50 ++ ellipsis) ∧
    (text.length ≤ 50 → preview text = text) := by
  unfold preview
  constructor
  · intro h
    rw [if_pos h]
    refine ⟨?_, rfl⟩
    simp [ellipsis]
    omega
  · intro h
    rw [if_neg (by omega)]

/-- Witness for `preview_truncation`: a 60-character string truncates to
length 53; a 1-character string is returned unchanged. -/
theorem preview_truncation_witness :
    (preview (List.replicate 60 97)).length = 53 ∧ preview [97] = [97] :=
  ⟨((preview_truncation (List.replicate 60 97)).1 (by decide)).1,
    (preview_truncation [97]).2 (by decide)⟩

/-- Claim C9: `analyze` is total: under the exception-level semantics
`analyzeRun`, every input string and every oracle behaviour — including
raising on every call — produces `Except.ok` of the well-formed result
`analyze` computes; no exception surfaces to the caller. -/
theorem analyzeRun_total (oracle : SentOracle) (tagger : Tagger)
    (text : Text) :
    analyzeRun oracle tagger text = Except.ok (analyze oracle tagger text) := by
  unfold analyzeRun analyze
  rw [get_sentimentRun_eq, analyze_text_detailsRun_eq]
  rfl

/-- Claim C10: every reachable session history has pairwise-distinct
entries: a history built from the empty list by any sequence of appends
contains no `HistoryEntry` value twice. -/
theorem runHistory_nodup (es : List HistoryEntry) : (runHistory es).Nodup := by
  suffices h : ∀ start : List HistoryEntry, start.Nodup →
      (es.foldl appendHistory start).Nodup by
    exact h [] List.nodup_nil
  induction es with
  | nil =>
    intro s hs
    simpa using hs
  | cons e es ih =>
    intro s hs
    exact ih _ (appendHistory_nodup hs e)
